import Mathlib

/-!
Verification of the multi-target screenshot orchestration script
(`screenshot.js`): a shallow embedding of its parsing, server-decision,
URL-resolution, format-dispatch and main-control-flow logic, together
with theorems about the behaviour the specification ascribes to it.

Modelling conventions:
* JS strings are Lean `String`s; the character-level helpers below mirror
  the JS string methods used by the script (ASCII case folding suffices
  because every pattern the script compares against is ASCII).
* Machine integers are modelled as `Int`/`Nat`; `parseInt` returning `NaN`
  is modelled as `none`.
* The external collaborators (server bind, readiness probe, page
  navigation, encode/write) are oracles packaged in a `World`; the main
  IIFE is a function from a `Config` and a `World` to the list of
  observable events it performs.  `process.exit` terminates the Node
  process at once: pending `finally` blocks do NOT run after it, and the
  model reflects that.
-/

namespace GithubScreenshots

/-- Whitespace recognised by `String.prototype.trim` (ASCII subset plus
NBSP and BOM, the only ones that can occur in the action's inputs). -/
def isWsChar (c : Char) : Bool :=
  c == ' ' || c == '\t' || c == '\n' || c == '\r' ||
  c == '\x0b' || c == '\x0c' || c == ' ' || c == '﻿'

/-- JS `s.trim()`: strip leading and trailing whitespace. -/
def trimJS (s : String) : String :=
  String.mk (((s.data.dropWhile isWsChar).reverse.dropWhile isWsChar).reverse)

/-- Split a character list at every occurrence of `sep` (JS
`String.prototype.split` with a single-character separator: `""` splits
to `[""]`, `","` splits to `["", ""]`). -/
def splitChar (sep : Char) : List Char → List (List Char)
  | [] => [[]]
  | c :: rest =>
    let r := splitChar sep rest
    if c == sep then [] :: r
    else
      match r with
      | [] => [[c]]
      | h :: t => (c :: h) :: t

/-- JS `s.split(sep)` for a one-character separator. -/
def jsSplit (sep : Char) (s : String) : List String :=
  (splitChar sep s.data).map String.mk

/-- Boolean list-prefix test. -/
def isPrefixList : List Char → List Char → Bool
  | [], _ => true
  | _ :: _, [] => false
  | a :: as, b :: bs => a == b && isPrefixList as bs

/-- JS `s.startsWith(p)`. -/
def startsWithStr (s p : String) : Bool :=
  isPrefixList p.data s.data

/-- ASCII lower-casing of a string (the script only compares against
ASCII patterns, so this coincides with JS `toLowerCase` there). -/
def lowerAscii (s : String) : String :=
  String.mk (s.data.map Char.toLower)

/-- JS `v || d` for an optional environment string: `undefined` and the
empty string are falsy and yield the default. -/
def jsOr (v : Option String) (d : String) : String :=
  match v with
  | none => d
  | some s => if s.data.isEmpty then d else s

/-! ## Target Parser (`screenshot.js` lines 112–119)

```js
const screenshotPairs = (process.env.SCREENSHOTS || "/=screenshot.webp")
  .split(',')
  .filter(Boolean)
  .map(pair => {
    const [urlPath, outputPath] = pair.trim().split('=').map(part => part.trim());
    return { urlPath, outputPath };
  });
```
JS array destructuring takes the first two components of the `'='` split;
a missing second component leaves `outputPath === undefined`, modelled as
`none`. -/

structure CaptureTarget where
  urlPath : String
  outputPath : Option String
deriving Repr, DecidableEq

/-- One item of the `SCREENSHOTS` string: trim, split on `=`, trim the
parts, destructure the first two. -/
def parsePair (pair : String) : CaptureTarget :=
  let parts := (jsSplit '=' (trimJS pair)).map trimJS
  { urlPath := parts.headD "", outputPath := parts[1]? }

/-- The parsed target list: split the raw configuration on commas,
drop falsy (empty) items, parse each remaining item. -/
def screenshotPairs (env : Option String) : List CaptureTarget :=
  ((jsSplit ',' (jsOr env "/=screenshot.webp")).filter
    (fun s => !s.data.isEmpty)).map parsePair

/-! ## Viewport height (`screenshot.js` line 122)

```js
const viewportHeight = process.env.INPUT_HEIGHT ? parseInt(process.env.INPUT_HEIGHT, 10) : null;
```
-/

/-- Decimal digits to a natural number. -/
def digitsToNat (cs : List Char) : Nat :=
  cs.foldl (fun a c => a * 10 + (c.toNat - '0'.toNat)) 0

/-- JS `parseInt(s, 10)`: skip leading whitespace, optional sign, then
leading digits; `NaN` (no digits) is `none`; trailing junk is ignored. -/
def parseIntJS (s : String) : Option Int :=
  let cs := s.data.dropWhile isWsChar
  let signed : Bool × List Char :=
    match cs with
    | '-' :: rest => (true, rest)
    | '+' :: rest => (false, rest)
    | _ => (false, cs)
  let digits := signed.2.takeWhile Char.isDigit
  if digits.isEmpty then none
  else some ((if signed.1 then -1 else 1) * (digitsToNat digits : Int))

/-- `viewportHeight`: `none` is JS `null` (env var absent or empty, hence
falsy); `some none` is `NaN`; `some (some n)` is the parsed number. -/
def viewportHeight (h : Option String) : Option (Option Int) :=
  match h with
  | none => none
  | some s => if s.data.isEmpty then none else some (parseIntJS s)

/-- JS truthiness of `viewportHeight`: `null`, `NaN` and `0` are falsy. -/
def heightTruthy : Option (Option Int) → Bool
  | some (some n) => n != 0
  | _ => false

/-! ## Absolute-URL test and server decision (`screenshot.js` lines 145–147)

```js
const isAbsoluteUrl = url => /^https?:\/\//i.test(url);
const needsLocalServer = screenshotPairs.some(pair => !isAbsoluteUrl(pair.urlPath));
```
-/

/-- The regex `/^https?:\/\//i`: the string starts (case-insensitively)
with `http://` or `https://`. -/
def isAbsoluteUrl (url : String) : Bool :=
  startsWithStr (lowerAscii url) "http://" || startsWithStr (lowerAscii url) "https://"

/-- A local server is needed when some target's source is not absolute. -/
def needsLocalServer (pairs : List CaptureTarget) : Bool :=
  pairs.any (fun pair => !isAbsoluteUrl pair.urlPath)

/-! ## Node `path` helpers (posix), as used at lines 182–183 and 190 -/

/-- The basename of a path with trailing slashes stripped, as Node's
`path` routines see it. -/
def baseNameOf (p : String) : String :=
  String.mk (((p.data.reverse.dropWhile (· == '/')).takeWhile (· != '/')).reverse)

/-- Index of the last `.` in a character list, if any. -/
def lastDotIdx (cs : List Char) : Option Nat :=
  match cs.reverse.findIdx? (· == '.') with
  | none => none
  | some j => some (cs.length - 1 - j)

/-- Node `path.extname`: the suffix of the basename from its last dot;
empty when there is no dot, when the only dot is the basename's first
character (dot-files), or when the basename is exactly `..`. -/
def extname (p : String) : String :=
  let base := baseNameOf p
  if base == ".." then ""
  else
    match lastDotIdx base.data with
    | none => ""
    | some 0 => ""
    | some i => String.mk (base.data.drop i)

/-- Node `path.dirname`: strip trailing slashes and the final component;
an empty remainder is `/` for absolute inputs and `.` otherwise. -/
def dirname (p : String) : String :=
  let rest := ((p.data.reverse.dropWhile (· == '/')).dropWhile (· != '/')).dropWhile (· == '/')
  if rest.isEmpty then (if startsWithStr p "/" then "/" else ".")
  else String.mk rest.reverse

/-- `path.resolve(workspacePath, outputPath)`, without `.`/`..`
normalisation (never exercised by the claims): an absolute second
argument wins, otherwise it is joined onto the base. -/
def pathResolve (base p : String) : String :=
  if startsWithStr p "/" then p else base ++ "/" ++ p

/-- The directories guaranteed to exist after
`fs.mkdir(dir, { recursive: true })`: the directory itself plus every
proper prefix ending just before a path separator. -/
def dirPrefixes (dir : String) : List String :=
  dir :: (List.range dir.data.length).filterMap
    (fun i => if dir.data.get? i == some '/' && decide (0 < i)
              then some (String.mk (dir.data.take i)) else none)

/-- `ensureDirectoryExists` (lines 230–238) over a directory-set model of
the filesystem: after the call, the requested directory and all its
ancestors exist, and previously existing directories persist. -/
def mkdirRecursive (fs : List String) (dir : String) : List String :=
  dirPrefixes dir ++ fs

/-! ## Encoder dispatch (`screenshot.js` lines 190–199)

```js
const ext = path.extname(outputPath).toLowerCase();
if (ext === '.png')        await sharpImage.png(pngOptions).toFile(fullOutputPath);
else if (['.jpg', '.jpeg'].includes(ext)) await sharpImage.jpeg(jpegOptions).toFile(fullOutputPath);
else                       await sharpImage.webp(webpOptions).toFile(fullOutputPath);
```
-/

inductive ImageFormat where
  | png
  | jpeg
  | webp
deriving Repr, DecidableEq

/-- The branch taken on the lower-cased extension string. -/
def formatOfExt (ext : String) : ImageFormat :=
  if ext == ".png" then .png
  else if ext == ".jpg" || ext == ".jpeg" then .jpeg
  else .webp

/-- The encoder chosen for a destination path. -/
def formatOf (outputPath : String) : ImageFormat :=
  formatOfExt (lowerAscii (extname outputPath))

/-! ## `JSON.parse` and format options (`screenshot.js` lines 124–141)

```js
const defaultOptions = {
  webp: { lossless: true, quality: 100, effort: 6 },
  png: { quality: 100 },
  jpeg: { quality: 90 }
};
try {
  webpOptions = JSON.parse(process.env.INPUT_WEBP_OPTIONS || JSON.stringify(defaultOptions.webp));
  pngOptions  = JSON.parse(process.env.INPUT_PNG_OPTIONS  || JSON.stringify(defaultOptions.png));
  jpegOptions = JSON.parse(process.env.INPUT_JPEG_OPTIONS || JSON.stringify(defaultOptions.jpeg));
} catch (error) {
  webpOptions = defaultOptions.webp;
  pngOptions  = defaultOptions.png;
  jpegOptions = defaultOptions.jpeg;
}
```
The one `try` wraps all three parses, so a throw anywhere resets all
three bags.  `JSON.parse` is modelled by a recursive-descent parser of
the JSON grammar; numbers are kept as their raw tokens (the script never
computes with them, it hands the bags to the encoder verbatim). -/

inductive Json where
  | jnull : Json
  | jbool : Bool → Json
  | jnum : String → Json
  | jstr : String → Json
  | jarr : List Json → Json
  | jobj : List (String × Json) → Json
deriving Repr

def jsonWs (c : Char) : Bool :=
  c == ' ' || c == '\t' || c == '\n' || c == '\r'

def lbrace : Char := '\x7b'

def rbrace : Char := '\x7d'

/-- Parse a JSON string body after the opening quote; returns the decoded
text and the input after the closing quote. -/
def parseStrBody : List Char → Option (String × List Char)
  | [] => none
  | '"' :: rest => some ("", rest)
  | '\\' :: e :: rest =>
    let dec : Option Char :=
      if e == '"' then some '"'
      else if e == '\\' then some '\\'
      else if e == '/' then some '/'
      else if e == 'b' then some '\x08'
      else if e == 'f' then some '\x0c'
      else if e == 'n' then some '\n'
      else if e == 'r' then some '\r'
      else if e == 't' then some '\t'
      else none
    match dec with
    | none => none
    | some c =>
      match parseStrBody rest with
      | none => none
      | some (s, rem) => some (String.mk (c :: s.data), rem)
  | '\\' :: [] => none
  | c :: rest =>
    if c == '"' || c == '\\' then none
    else
      match parseStrBody rest with
      | none => none
      | some (s, rem) => some (String.mk (c :: s.data), rem)

/-- Parse a JSON number token (`-? digits (.digits)? ([eE][+-]?digits)?`),
returning its raw text. -/
def parseNumTok (cs : List Char) : Option (String × List Char) :=
  let core : List Char × List Char :=
    match cs with
    | '-' :: rest => (['-'], rest)
    | _ => ([], cs)
  let intPart := core.2.takeWhile Char.isDigit
  if intPart.isEmpty then none
  else
    let after1 := core.2.drop intPart.length
    let fracAndRest : List Char × List Char :=
      match after1 with
      | '.' :: rest =>
        let ds := rest.takeWhile Char.isDigit
        if ds.isEmpty then ([], after1) else ('.' :: ds, rest.drop ds.length)
      | _ => ([], after1)
    let after2 := fracAndRest.2
    let expAndRest : List Char × List Char :=
      match after2 with
      | 'e' :: rest =>
        let sgn : List Char × List Char :=
          match rest with
          | '+' :: r => (['+'], r) | '-' :: r => (['-'], r) | _ => ([], rest)
        let ds := sgn.2.takeWhile Char.isDigit
        if ds.isEmpty then ([], after2)
        else ('e' :: sgn.1 ++ ds, sgn.2.drop ds.length)
      | 'E' :: rest =>
        let sgn : List Char × List Char :=
          match rest with
          | '+' :: r => (['+'], r) | '-' :: r => (['-'], r) | _ => ([], rest)
        let ds := sgn.2.takeWhile Char.isDigit
        if ds.isEmpty then ([], after2)
        else ('E' :: sgn.1 ++ ds, sgn.2.drop ds.length)
      | _ => ([], after2)
    some (String.mk (core.1 ++ intPart ++ fracAndRest.1 ++ expAndRest.1), expAndRest.2)

mutual

/-- Parse one JSON value (fuel-indexed recursive descent). -/
def parseVal : Nat → List Char → Option (Json × List Char)
  | 0, _ => none
  | Nat.succ fuel, cs =>
    match cs.dropWhile jsonWs with
    | [] => none
    | c :: rest =>
      if c == '"' then
        match parseStrBody rest with
        | none => none
        | some (s, rem) => some (.jstr s, rem)
      else if c == lbrace then
        match rest.dropWhile jsonWs with
        | d :: rem =>
          if d == rbrace then some (.jobj [], rem)
          else
            match parseMembers fuel (d :: rem) with
            | none => none
            | some (fields, rem2) =>
              match rem2.dropWhile jsonWs with
              | d2 :: rem3 => if d2 == rbrace then some (.jobj fields, rem3) else none
              | [] => none
        | [] => none
      else if c == '[' then
        match rest.dropWhile jsonWs with
        | ']' :: rem => some (.jarr [], rem)
        | other =>
          match parseElems fuel other with
          | none => none
          | some (xs, rem2) =>
            match rem2.dropWhile jsonWs with
            | ']' :: rem3 => some (.jarr xs, rem3)
            | _ => none
      else if isPrefixList "true".data (c :: rest) then
        some (.jbool true, (c :: rest).drop 4)
      else if isPrefixList "false".data (c :: rest) then
        some (.jbool false, (c :: rest).drop 5)
      else if isPrefixList "null".data (c :: rest) then
        some (.jnull, (c :: rest).drop 4)
      else
        match parseNumTok (c :: rest) with
        | none => none
        | some (tok, rem) => some (.jnum tok, rem)

/-- Parse a non-empty comma-separated list of object members. -/
def parseMembers : Nat → List Char → Option (List (String × Json) × List Char)
  | 0, _ => none
  | Nat.succ fuel, cs =>
    match cs.dropWhile jsonWs with
    | '"' :: rest =>
      match parseStrBody rest with
      | none => none
      | some (key, rem) =>
        match rem.dropWhile jsonWs with
        | ':' :: rem2 =>
          match parseVal fuel rem2 with
          | none => none
          | some (v, rem3) =>
            match rem3.dropWhile jsonWs with
            | ',' :: rem4 =>
              match parseMembers fuel rem4 with
              | none => none
              | some (fields, rem5) => some ((key, v) :: fields, rem5)
            | other => some ([(key, v)], other)
        | _ => none
    | _ => none

/-- Parse a non-empty comma-separated list of array elements. -/
def parseElems : Nat → List Char → Option (List Json × List Char)
  | 0, _ => none
  | Nat.succ fuel, cs =>
    match parseVal fuel cs with
    | none => none
    | some (v, rem) =>
      match rem.dropWhile jsonWs with
      | ',' :: rem2 =>
        match parseElems fuel rem2 with
        | none => none
        | some (xs, rem3) => some (v :: xs, rem3)
      | other => some ([v], other)

end

/-- `JSON.parse`: parse one value and require only whitespace after it;
`none` models the thrown `SyntaxError`. -/
def jsonParse (s : String) : Option Json :=
  match parseVal (s.data.length + 1) s.data with
  | none => none
  | some (v, rem) => if (rem.dropWhile jsonWs).isEmpty then some v else none

/-- `defaultOptions.webp` as a JSON value. -/
def defaultWebpJson : Json :=
  .jobj [("lossless", .jbool true), ("quality", .jnum "100"), ("effort", .jnum "6")]

/-- `defaultOptions.png` as a JSON value. -/
def defaultPngJson : Json := .jobj [("quality", .jnum "100")]

/-- `defaultOptions.jpeg` as a JSON value. -/
def defaultJpegJson : Json := .jobj [("quality", .jnum "90")]

structure FormatOptions where
  webp : Json
  png : Json
  jpeg : Json
deriving Repr

/-- The string `JSON.stringify(defaultOptions.webp)` produces. -/
def defaultWebpStr : String := "\x7b\"lossless\":true,\"quality\":100,\"effort\":6\x7d"

/-- The string `JSON.stringify(defaultOptions.png)` produces. -/
def defaultPngStr : String := "\x7b\"quality\":100\x7d"

/-- The string `JSON.stringify(defaultOptions.jpeg)` produces. -/
def defaultJpegStr : String := "\x7b\"quality\":90\x7d"

/-- The final values of `webpOptions`/`pngOptions`/`jpegOptions`.  The
`try` at lines 132–141 runs the three parses in sequence and one `catch`
resets all three bags, so the final state is the three parse results when
all succeed and the three defaults when any parse throws (options already
assigned inside the `try` are overwritten by the `catch`). -/
def parseFormatOptions (w p j : Option String) : FormatOptions :=
  let pw := jsonParse (jsOr w defaultWebpStr)
  let pp := jsonParse (jsOr p defaultPngStr)
  let pj := jsonParse (jsOr j defaultJpegStr)
  match pw, pp, pj with
  | some a, some b, some c => ⟨a, b, c⟩
  | _, _, _ => ⟨defaultWebpJson, defaultPngJson, defaultJpegJson⟩

/-! ## `waitForServer` (`screenshot.js` lines 79–105)

```js
async function waitForServer(host, port, maxAttempts = 20, interval = 500) {
  for (let attempt = 1; attempt <= maxAttempts; attempt++) {
    try { await checkServer(); return true; }
    catch { await sleep(interval); }
  }
  return false;
}
```
`checkOk attempt` is the oracle for whether the `HEAD /` probe succeeds
on that attempt. -/

def waitForServerGo (checkOk : Nat → Bool) : Nat → Nat → Bool
  | _, 0 => false
  | attempt, Nat.succ remaining =>
    if checkOk attempt then true else waitForServerGo checkOk (attempt + 1) remaining

/-- Readiness polling: attempts `1..maxAttempts`, true as soon as one
probe succeeds, false when all fail. -/
def waitForServer (checkOk : Nat → Bool) (maxAttempts : Nat) : Bool :=
  waitForServerGo checkOk 1 maxAttempts

/-! ## The main IIFE (`screenshot.js` lines 107–227) -/

/-- The environment-style inputs the main flow reads (`SCREENSHOTS`,
`INPUT_HEIGHT`, `INPUT_PORT`, `GITHUB_WORKSPACE`/cwd).  `INPUT_WIDTH` and
the three `INPUT_*_OPTIONS` strings do not influence any modelled event
and are handled by `parseFormatOptions` above. -/
structure Config where
  screenshots : Option String
  inputHeight : Option String
  inputPort : Option String
  workspace : String

/-- Outcomes of the external collaborators: whether the server binds,
which readiness probes succeed, whether the browser launches, and which
navigations and encode/writes fail. -/
structure World where
  serverBindOk : Bool
  checkOk : Nat → Bool
  launchOk : Bool
  navFails : String → Bool
  encodeFails : String → Bool

/-- The observable actions of one run, in order. -/
inductive Event where
  | serverStarted : Event
  | browserLaunched : Event
  | navigated : String → Event
  | navFailed : String → Event
  | ensuredDir : String → Event
  | screenshotTaken : Bool → Event
  | wrote : String → ImageFormat → Event
  | browserClosed : Event
  | serverClosed : Event
  | exited : Nat → Event
deriving Repr, DecidableEq

/-- JS string interpolation of `serverPort` (parsed with `parseInt`;
`NaN` prints as `"NaN"`). -/
def jsIntToString : Option Int → String
  | none => "NaN"
  | some n => toString n

/-- Effective URL of one target (lines 171–173): absolute specs pass
through; otherwise, with a server running, compose
`http://localhost:<port><path with leading slash normalised>`. -/
def resolveUrl (serverRunning : Bool) (portStr : String) (urlPath : String) : String :=
  if isAbsoluteUrl urlPath then urlPath
  else if serverRunning then
    "http://localhost:" ++ portStr ++
      (if startsWithStr urlPath "/" then urlPath else "/" ++ urlPath)
  else urlPath

/-- `processScreenshot` for one target (lines 169–203): navigate, ensure
the destination's directory, capture with the run's `fullPage` flag, and
encode by extension.  `false` in the second component means the step
threw (navigation failure, `path.resolve` on an `undefined` destination,
or an encode/write failure), which propagates to the IIFE's `catch`. -/
def targetEvents (w : World) (serverRunning : Bool) (portStr workspace : String)
    (fullPage : Bool) (t : CaptureTarget) : List Event × Bool :=
  let url := resolveUrl serverRunning portStr t.urlPath
  if w.navFails url then ([.navFailed url], false)
  else
    match t.outputPath with
    | none => ([.navigated url], false)
    | some out =>
      let full := pathResolve workspace out
      if w.encodeFails full then
        ([.navigated url, .ensuredDir (dirname full), .screenshotTaken fullPage], false)
      else
        ([.navigated url, .ensuredDir (dirname full), .screenshotTaken fullPage,
          .wrote full (formatOf out)], true)

/-- The sequential loop over `screenshotPairs` (lines 206–209): strictly
in order, stopping at the first failure. -/
def runBody (w : World) (serverRunning : Bool) (portStr workspace : String)
    (fullPage : Bool) : List CaptureTarget → List Event × Bool
  | [] => ([], true)
  | t :: ts =>
    let step := targetEvents w serverRunning portStr workspace fullPage t
    if step.2 then
      let rest := runBody w serverRunning portStr workspace fullPage ts
      (step.1 ++ rest.1, rest.2)
    else step

/-- The `try`/`catch`/`finally` around the browser session (lines
162–226).  On success: close the browser, then the `finally` stops the
server if one is running.  On any throw: the `catch` logs and calls
`process.exit(1)`, which terminates Node immediately — the browser is
never closed and the `finally` never runs. -/
def mainTryEvents (w : World) (serverRunning : Bool) (portStr workspace : String)
    (fullPage : Bool) (pairs : List CaptureTarget) : List Event :=
  if w.launchOk then
    let body := runBody w serverRunning portStr workspace fullPage pairs
    if body.2 then
      Event.browserLaunched :: body.1 ++ [Event.browserClosed] ++
        (if serverRunning then [Event.serverClosed] else []) ++ [Event.exited 0]
    else
      Event.browserLaunched :: body.1 ++ [Event.exited 1]
  else [Event.exited 1]

/-- The whole run: parse the targets, decide on the server (starting it
and polling readiness when needed — the polling result is discarded, as
in the source), then run the browser session.  A server bind failure is
caught at lines 156–159 and exits 1 before the browser exists. -/
def run (cfg : Config) (w : World) : List Event :=
  let pairs := screenshotPairs cfg.screenshots
  let fullPage := !heightTruthy (viewportHeight cfg.inputHeight)
  let portStr := jsIntToString (parseIntJS (jsOr cfg.inputPort "3000"))
  if needsLocalServer pairs then
    if w.serverBindOk then
      let _ready := waitForServer w.checkOk 20
      Event.serverStarted :: mainTryEvents w true portStr cfg.workspace fullPage pairs
    else [Event.exited 1]
  else mainTryEvents w false portStr cfg.workspace fullPage pairs

/-- Number of `serverStarted` events in a trace. -/
def countServerStarts (trace : List Event) : Nat :=
  trace.count Event.serverStarted

/-- Checker for the claim that every write is preceded by a recursive
`mkdir` of its parent directory: scans the trace, accumulating ensured
directories, and demands the parent of each written path among them. -/
def writesCovered (dirs : List String) : List Event → Bool
  | [] => true
  | Event.ensuredDir d :: rest => writesCovered (d :: dirs) rest
  | Event.wrote p _ :: rest => dirs.contains (dirname p) && writesCovered dirs rest
  | _ :: rest => writesCovered dirs rest

/-- The ensured-directory accumulator after scanning a trace. -/
def ensuredAfter (dirs : List String) : List Event → List String
  | [] => dirs
  | Event.ensuredDir d :: rest => ensuredAfter (d :: dirs) rest
  | _ :: rest => ensuredAfter dirs rest

/-- Number of top-level fields of a JSON object (a discriminator used to
tell concrete option bags apart). -/
def jsonFieldCount : Json → Nat
  | .jobj l => l.length
  | _ => 0

/-! ## Helper lemmas about the run trace -/

/-- Events produced inside `processScreenshot` (per-target work), as
opposed to the lifecycle events of the surrounding control flow. -/
def midEvent : Event → Bool
  | .navigated _ => true
  | .navFailed _ => true
  | .ensuredDir _ => true
  | .screenshotTaken _ => true
  | .wrote _ _ => true
  | _ => false

/-- Whether an event is consistent with the run-wide `fullPage` flag. -/
def flagOk (fp : Bool) : Event → Bool
  | .screenshotTaken b => b == fp
  | _ => true

lemma targetEvents_all_mid (w : World) (srv : Bool) (port ws : String) (fp : Bool)
    (t : CaptureTarget) :
    ((targetEvents w srv port ws fp t).1.all midEvent) = true := by
  unfold targetEvents
  by_cases h1 : w.navFails (resolveUrl srv port t.urlPath)
  · simp [h1, midEvent]
  · cases ht : t.outputPath with
    | none => simp [h1, midEvent]
    | some out =>
      by_cases h3 : w.encodeFails (pathResolve ws out) <;>
        simp [h1, h3, midEvent]

lemma targetEvents_all_flag (w : World) (srv : Bool) (port ws : String) (fp : Bool)
    (t : CaptureTarget) :
    ((targetEvents w srv port ws fp t).1.all (flagOk fp)) = true := by
  unfold targetEvents
  by_cases h1 : w.navFails (resolveUrl srv port t.urlPath)
  · simp [h1, flagOk]
  · cases ht : t.outputPath with
    | none => simp [h1, flagOk]
    | some out =>
      by_cases h3 : w.encodeFails (pathResolve ws out) <;>
        simp [h1, h3, flagOk]

lemma runBody_all (q : Event → Bool) (w : World) (srv : Bool) (port ws : String)
    (fp : Bool)
    (hq : ∀ t : CaptureTarget, ((targetEvents w srv port ws fp t).1.all q) = true) :
    ∀ pairs, ((runBody w srv port ws fp pairs).1.all q) = true := by
  intro pairs
  induction pairs with
  | nil => simp [runBody]
  | cons t ts ih =>
    unfold runBody
    by_cases h : (targetEvents w srv port ws fp t).2
    · simp [h, List.all_append, hq t, ih]
    · simp only [h, if_false, Bool.false_eq_true]
      exact hq t

lemma mem_of_all {q : Event → Bool} {l : List Event} (hall : (l.all q) = true)
    {e : Event} (he : e ∈ l) : q e = true :=
  List.all_eq_true.mp hall e he

lemma mainTry_mem_cases (w : World) (srv : Bool) (port ws : String) (fp : Bool)
    (pairs : List CaptureTarget) (e : Event)
    (he : e ∈ mainTryEvents w srv port ws fp pairs) :
    e = Event.browserLaunched ∨ e ∈ (runBody w srv port ws fp pairs).1 ∨
      e = Event.browserClosed ∨ e = Event.serverClosed ∨
      e = Event.exited 0 ∨ e = Event.exited 1 := by
  unfold mainTryEvents at he
  by_cases hl : w.launchOk
  · simp only [hl, if_true] at he
    by_cases hb : (runBody w srv port ws fp pairs).2
    · simp only [hb, if_true] at he
      rcases List.mem_cons.mp he with h | h
      · exact Or.inl h
      rcases List.mem_append.mp h with h | h
      · rcases List.mem_append.mp h with h | h
        · rcases List.mem_append.mp h with h | h
          · exact Or.inr (Or.inl h)
          · simp only [List.mem_singleton] at h
            exact Or.inr (Or.inr (Or.inl h))
        · cases srv <;> simp_all
      · simp only [List.mem_singleton] at h
        exact Or.inr (Or.inr (Or.inr (Or.inr (Or.inl h))))
    · simp only [hb, if_false, Bool.false_eq_true] at he
      rcases List.mem_cons.mp he with h | h
      · exact Or.inl h
      rcases List.mem_append.mp h with h | h
      · exact Or.inr (Or.inl h)
      · simp only [List.mem_singleton] at h
        exact Or.inr (Or.inr (Or.inr (Or.inr (Or.inr h))))
  · simp only [hl, if_false, Bool.false_eq_true, List.mem_singleton] at he
    exact Or.inr (Or.inr (Or.inr (Or.inr (Or.inr he))))

lemma run_mem_cases (cfg : Config) (w : World) (e : Event)
    (he : e ∈ run cfg w) :
    e = Event.serverStarted ∨ e = Event.browserLaunched ∨
      (∃ srv, e ∈ (runBody w srv
        (jsIntToString (parseIntJS (jsOr cfg.inputPort "3000"))) cfg.workspace
        (!heightTruthy (viewportHeight cfg.inputHeight))
        (screenshotPairs cfg.screenshots)).1) ∨
      e = Event.browserClosed ∨ e = Event.serverClosed ∨
      e = Event.exited 0 ∨ e = Event.exited 1 := by
  unfold run at he
  by_cases hn : needsLocalServer (screenshotPairs cfg.screenshots)
  · simp only [hn, if_true] at he
    by_cases hb : w.serverBindOk
    · simp only [hb, if_true] at he
      rcases List.mem_cons.mp he with h | h
      · exact Or.inl h
      · rcases mainTry_mem_cases w true _ _ _ _ e h with h | h | h | h | h | h
        · exact Or.inr (Or.inl h)
        · exact Or.inr (Or.inr (Or.inl ⟨true, h⟩))
        · exact Or.inr (Or.inr (Or.inr (Or.inl h)))
        · exact Or.inr (Or.inr (Or.inr (Or.inr (Or.inl h))))
        · exact Or.inr (Or.inr (Or.inr (Or.inr (Or.inr (Or.inl h)))))
        · exact Or.inr (Or.inr (Or.inr (Or.inr (Or.inr (Or.inr h)))))
    · simp only [hb, if_false, Bool.false_eq_true, List.mem_singleton] at he
      exact Or.inr (Or.inr (Or.inr (Or.inr (Or.inr (Or.inr he)))))
  · simp only [hn, if_false, Bool.false_eq_true] at he
    rcases mainTry_mem_cases w false _ _ _ _ e he with h | h | h | h | h | h
    · exact Or.inr (Or.inl h)
    · exact Or.inr (Or.inr (Or.inl ⟨false, h⟩))
    · exact Or.inr (Or.inr (Or.inr (Or.inl h)))
    · exact Or.inr (Or.inr (Or.inr (Or.inr (Or.inl h))))
    · exact Or.inr (Or.inr (Or.inr (Or.inr (Or.inr (Or.inl h)))))
    · exact Or.inr (Or.inr (Or.inr (Or.inr (Or.inr (Or.inr h)))))

lemma screenshot_flag_run (cfg : Config) (w : World) (b : Bool)
    (he : Event.screenshotTaken b ∈ run cfg w) :
    b = !heightTruthy (viewportHeight cfg.inputHeight) := by
  rcases run_mem_cases cfg w _ he with h | h | ⟨srv, h⟩ | h | h | h | h
  all_goals first
    | cases h
    | (have hf := mem_of_all
        (runBody_all (flagOk (!heightTruthy (viewportHeight cfg.inputHeight)))
          w srv _ _ _ (fun t => targetEvents_all_flag w srv _ _ _ t) _) h
       simpa [flagOk] using hf)

lemma writesCovered_append (ys : List Event) :
    ∀ (xs : List Event) (dirs : List String),
      writesCovered dirs (xs ++ ys)
        = (writesCovered dirs xs && writesCovered (ensuredAfter dirs xs) ys) := by
  intro xs
  induction xs with
  | nil => intro dirs; simp [writesCovered, ensuredAfter]
  | cons e rest ih =>
    intro dirs
    cases e with
    | ensuredDir d => simp [writesCovered, ensuredAfter, ih]
    | wrote p f => simp [writesCovered, ensuredAfter, ih, Bool.and_assoc]
    | serverStarted => simp [writesCovered, ensuredAfter, ih]
    | browserLaunched => simp [writesCovered, ensuredAfter, ih]
    | navigated u => simp [writesCovered, ensuredAfter, ih]
    | navFailed u => simp [writesCovered, ensuredAfter, ih]
    | screenshotTaken b => simp [writesCovered, ensuredAfter, ih]
    | browserClosed => simp [writesCovered, ensuredAfter, ih]
    | serverClosed => simp [writesCovered, ensuredAfter, ih]
    | exited n => simp [writesCovered, ensuredAfter, ih]

lemma writesCovered_target (w : World) (srv : Bool) (port ws : String) (fp : Bool)
    (t : CaptureTarget) (dirs : List String) :
    writesCovered dirs (targetEvents w srv port ws fp t).1 = true := by
  unfold targetEvents
  by_cases h1 : w.navFails (resolveUrl srv port t.urlPath)
  · simp [h1, writesCovered]
  · cases ht : t.outputPath with
    | none => simp [h1, writesCovered]
    | some out =>
      by_cases h3 : w.encodeFails (pathResolve ws out) <;>
        simp [h1, h3, writesCovered]

lemma writesCovered_runBody (w : World) (srv : Bool) (port ws : String) (fp : Bool) :
    ∀ (pairs : List CaptureTarget) (dirs : List String),
      writesCovered dirs (runBody w srv port ws fp pairs).1 = true := by
  intro pairs
  induction pairs with
  | nil => intro dirs; simp [runBody, writesCovered]
  | cons t ts ih =>
    intro dirs
    unfold runBody
    by_cases h : (targetEvents w srv port ws fp t).2
    · simp only [h, if_true]
      rw [writesCovered_append]
      simp [writesCovered_target, ih]
    · simp only [h, if_false, Bool.false_eq_true]
      exact writesCovered_target w srv port ws fp t dirs

lemma writesCovered_mainTry (w : World) (srv : Bool) (port ws : String) (fp : Bool)
    (pairs : List CaptureTarget) (dirs : List String) :
    writesCovered dirs (mainTryEvents w srv port ws fp pairs) = true := by
  unfold mainTryEvents
  by_cases hl : w.launchOk
  · by_cases hb : (runBody w srv port ws fp pairs).2
    · simp only [hl, hb, if_true]
      have key : writesCovered dirs
          ((((runBody w srv port ws fp pairs).1 ++ [Event.browserClosed]) ++
            (if srv = true then [Event.serverClosed] else [])) ++ [Event.exited 0])
          = true := by
        rw [writesCovered_append, writesCovered_append, writesCovered_append]
        simp only [writesCovered_runBody, Bool.true_and]
        cases srv <;> simp [writesCovered]
      exact key
    · simp only [hl, hb, if_true, if_false, Bool.false_eq_true]
      have key : writesCovered dirs
          ((runBody w srv port ws fp pairs).1 ++ [Event.exited 1]) = true := by
        rw [writesCovered_append]
        simp [writesCovered_runBody, writesCovered]
      exact key
  · simp [hl, writesCovered]

lemma writesCovered_run (cfg : Config) (w : World) :
    writesCovered [] (run cfg w) = true := by
  unfold run
  by_cases hn : needsLocalServer (screenshotPairs cfg.screenshots)
  · by_cases hb : w.serverBindOk
    · simp only [hn, hb, if_true]
      exact writesCovered_mainTry w true _ _ _ _ _
    · simp [hn, hb, writesCovered]
  · simp only [hn, if_false, Bool.false_eq_true]
    exact writesCovered_mainTry w false _ _ _ _ _

lemma waitForServerGo_iff (checkOk : Nat → Bool) :
    ∀ (remaining attempt : Nat),
      waitForServerGo checkOk attempt remaining = true ↔
        ∃ k, attempt ≤ k ∧ k < attempt + remaining ∧ checkOk k = true := by
  intro remaining
  induction remaining with
  | zero =>
    intro attempt
    simp only [waitForServerGo]
    constructor
    · intro h; cases h
    · rintro ⟨k, hk1, hk2, _⟩; omega
  | succ r ih =>
    intro attempt
    simp only [waitForServerGo]
    by_cases h : checkOk attempt
    · simp only [h, if_true, true_iff]
      exact ⟨attempt, le_refl _, by omega, h⟩
    · simp only [h, if_false, Bool.false_eq_true, ih (attempt + 1)]
      constructor
      · rintro ⟨k, hk1, hk2, hk3⟩
        exact ⟨k, by omega, by omega, hk3⟩
      · rintro ⟨k, hk1, hk2, hk3⟩
        refine ⟨k, ?_, by omega, hk3⟩
        rcases Nat.eq_or_lt_of_le hk1 with heq | hlt
        · subst heq; exact absurd hk3 h
        · omega

lemma waitForServer_iff (checkOk : Nat → Bool) (n : Nat) :
    waitForServer checkOk n = true ↔ ∃ k, 1 ≤ k ∧ k ≤ n ∧ checkOk k = true := by
  unfold waitForServer
  rw [waitForServerGo_iff]
  constructor
  · rintro ⟨k, h1, h2, h3⟩; exact ⟨k, h1, by omega, h3⟩
  · rintro ⟨k, h1, h2, h3⟩; exact ⟨k, h1, by omega, h3⟩

lemma not_mid_not_in_runBody (w : World) (srv : Bool) (port ws : String) (fp : Bool)
    {e : Event} (hme : midEvent e = false) :
    ∀ pairs, e ∉ (runBody w srv port ws fp pairs).1 := by
  intro pairs h
  have hq := mem_of_all
    (runBody_all midEvent w srv port ws fp (targetEvents_all_mid w srv port ws fp) pairs) h
  rw [hme] at hq
  exact Bool.false_ne_true hq

lemma serverStarted_not_in_mainTry (w : World) (srv : Bool) (port ws : String)
    (fp : Bool) (pairs : List CaptureTarget) :
    Event.serverStarted ∉ mainTryEvents w srv port ws fp pairs := by
  intro h
  rcases mainTry_mem_cases w srv port ws fp pairs _ h with h | h | h | h | h | h
  · exact Event.noConfusion h
  · exact not_mid_not_in_runBody w srv port ws fp (e := Event.serverStarted) rfl pairs h
  · exact Event.noConfusion h
  · exact Event.noConfusion h
  · exact Event.noConfusion h
  · exact Event.noConfusion h

lemma needsLocalServer_iff (pairs : List CaptureTarget) :
    needsLocalServer pairs = true ↔ ∃ t ∈ pairs, isAbsoluteUrl t.urlPath = false := by
  unfold needsLocalServer
  rw [List.any_eq_true]
  constructor
  · rintro ⟨t, ht, hp⟩; exact ⟨t, ht, by simpa using hp⟩
  · rintro ⟨t, ht, hp⟩; exact ⟨t, ht, by simpa using hp⟩

lemma run_with_server (cfg : Config) (w : World)
    (hn : needsLocalServer (screenshotPairs cfg.screenshots) = true)
    (hb : w.serverBindOk = true) :
    run cfg w = Event.serverStarted :: mainTryEvents w true
      (jsIntToString (parseIntJS (jsOr cfg.inputPort "3000"))) cfg.workspace
      (!heightTruthy (viewportHeight cfg.inputHeight))
      (screenshotPairs cfg.screenshots) := by
  unfold run; simp [hn, hb]

lemma run_bind_failure (cfg : Config) (w : World)
    (hn : needsLocalServer (screenshotPairs cfg.screenshots) = true)
    (hb : w.serverBindOk = false) :
    run cfg w = [Event.exited 1] := by
  unfold run; simp [hn, hb]

lemma run_without_server (cfg : Config) (w : World)
    (hn : needsLocalServer (screenshotPairs cfg.screenshots) = false) :
    run cfg w = mainTryEvents w false
      (jsIntToString (parseIntJS (jsOr cfg.inputPort "3000"))) cfg.workspace
      (!heightTruthy (viewportHeight cfg.inputHeight))
      (screenshotPairs cfg.screenshots) := by
  unfold run; simp [hn]

lemma mainTry_exit0_iff (w : World) (srv : Bool) (port ws : String) (fp : Bool)
    (pairs : List CaptureTarget) (hl : w.launchOk = true) :
    Event.exited 0 ∈ mainTryEvents w srv port ws fp pairs ↔
      (runBody w srv port ws fp pairs).2 = true := by
  have hnb : Event.exited 0 ∉ (runBody w srv port ws fp pairs).1 :=
    not_mid_not_in_runBody w srv port ws fp (e := Event.exited 0) rfl pairs
  unfold mainTryEvents
  by_cases hs : (runBody w srv port ws fp pairs).2
  · simp only [hl, hs, if_true]
    simp [hs]
  · simp only [hl, if_true]
    simp only [hs, if_false, Bool.false_eq_true]
    simp [hs, hnb]

lemma mainTry_exit1_iff (w : World) (srv : Bool) (port ws : String) (fp : Bool)
    (pairs : List CaptureTarget) (hl : w.launchOk = true) :
    Event.exited 1 ∈ mainTryEvents w srv port ws fp pairs ↔
      (runBody w srv port ws fp pairs).2 = false := by
  have hnb : Event.exited 1 ∉ (runBody w srv port ws fp pairs).1 :=
    not_mid_not_in_runBody w srv port ws fp (e := Event.exited 1) rfl pairs
  unfold mainTryEvents
  by_cases hs : (runBody w srv port ws fp pairs).2
  · simp only [hl, hs, if_true]
    simp [hs, hnb]
  · simp only [hl, if_true]
    simp only [hs, if_false, Bool.false_eq_true]
    simp [hs]

lemma mainTry_browserClosed_iff (w : World) (srv : Bool) (port ws : String) (fp : Bool)
    (pairs : List CaptureTarget) (hl : w.launchOk = true) :
    Event.browserClosed ∈ mainTryEvents w srv port ws fp pairs ↔
      (runBody w srv port ws fp pairs).2 = true := by
  have hnb : Event.browserClosed ∉ (runBody w srv port ws fp pairs).1 :=
    not_mid_not_in_runBody w srv port ws fp (e := Event.browserClosed) rfl pairs
  unfold mainTryEvents
  by_cases hs : (runBody w srv port ws fp pairs).2
  · simp only [hl, hs, if_true]
    simp [hs]
  · simp only [hl, if_true]
    simp only [hs, if_false, Bool.false_eq_true]
    simp [hs, hnb]

lemma mainTry_serverClosed_iff (w : World) (srv : Bool) (port ws : String) (fp : Bool)
    (pairs : List CaptureTarget) (hl : w.launchOk = true) :
    Event.serverClosed ∈ mainTryEvents w srv port ws fp pairs ↔
      ((runBody w srv port ws fp pairs).2 = true ∧ srv = true) := by
  have hnb : Event.serverClosed ∉ (runBody w srv port ws fp pairs).1 :=
    not_mid_not_in_runBody w srv port ws fp (e := Event.serverClosed) rfl pairs
  unfold mainTryEvents
  by_cases hs : (runBody w srv port ws fp pairs).2
  · simp only [hl, hs, if_true]
    cases srv <;> simp [hs, hnb]
  · simp only [hl, if_true]
    simp only [hs, if_false, Bool.false_eq_true]
    simp [hs, hnb]

/-! ## Claims -/

/-- C5 (code bug): the Target Parser is claimed to split the
configuration string on commas and/or newlines, discarding empty items.
The source splits on commas only (line 114: `.split(',')`), so a
newline-separated configuration collapses into a single mangled target,
and `.filter(Boolean)` runs before trimming, so a whitespace-only item
survives as a junk target.  The repository's own test suite
(`tests/screenshot.action.test.js`, "Parses mixed comma/newline input,
trims, ignores blanks") requires the claimed behaviour. -/
theorem c5_comma_only_split :
    screenshotPairs (some "/index.html=a.webp\n/about.html=b.png")
      = [⟨"/index.html", some "a.webp\n/about.html"⟩]
    ∧ screenshotPairs (some "a=b, ,c=d")
      = [⟨"a", some "b"⟩, ⟨"", none⟩, ⟨"c", some "d"⟩] := by
  constructor <;> rfl

/-- C6: a local server is started iff some target's source is not an
absolute URL (`http://`/`https://` prefix, case-insensitive); at most one
server per run; zero when all targets are absolute.  The bind-success
hypothesis reflects that starting is only observable when the
`createServer` promise resolves. -/
theorem c6_server_start_iff (cfg : Config) (w : World) :
    countServerStarts (run cfg w) ≤ 1
    ∧ (w.serverBindOk = true →
        (countServerStarts (run cfg w) = 1 ↔
          ∃ t ∈ screenshotPairs cfg.screenshots, isAbsoluteUrl t.urlPath = false))
    ∧ ((∀ t ∈ screenshotPairs cfg.screenshots, isAbsoluteUrl t.urlPath = true) →
        countServerStarts (run cfg w) = 0) := by
  by_cases hn : needsLocalServer (screenshotPairs cfg.screenshots)
  · by_cases hb : w.serverBindOk
    · have hcount : countServerStarts (run cfg w) = 1 := by
        rw [run_with_server cfg w hn hb]
        unfold countServerStarts
        rw [List.count_cons_self, List.count_eq_zero.mpr (serverStarted_not_in_mainTry _ _ _ _ _ _)]
      refine ⟨by omega, fun _ => ?_, fun hall => ?_⟩
      · rw [hcount]
        exact ⟨fun _ => (needsLocalServer_iff _).mp hn, fun _ => rfl⟩
      · obtain ⟨t, ht, hf⟩ := (needsLocalServer_iff _).mp hn
        simp [hall t ht] at hf
    · have hb' : w.serverBindOk = false := by simpa using hb
      have hcount : countServerStarts (run cfg w) = 0 := by
        rw [run_bind_failure cfg w hn hb']; decide
      exact ⟨by omega, fun hbt => absurd hbt hb, fun _ => hcount⟩
  · have hn' : needsLocalServer (screenshotPairs cfg.screenshots) = false := by
      simpa using hn
    have hcount : countServerStarts (run cfg w) = 0 := by
      rw [run_without_server cfg w hn']
      exact List.count_eq_zero.mpr (serverStarted_not_in_mainTry _ _ _ _ _ _)
    refine ⟨by omega, fun _ => ?_, fun _ => hcount⟩
    rw [hcount]
    constructor
    · intro h01; exact absurd h01 (by omega)
    · intro hex; exact absurd ((needsLocalServer_iff _).mpr hex) hn

/-- C6 witness: a single relative target starts exactly one server. -/
theorem c6_server_start_iff_witness :
    countServerStarts (run ⟨some "/=shot.webp", none, none, "/ws"⟩
      ⟨true, fun _ => true, true, fun _ => false, fun _ => false⟩) = 1 :=
  ((c6_server_start_iff ⟨some "/=shot.webp", none, none, "/ws"⟩
      ⟨true, fun _ => true, true, fun _ => false, fun _ => false⟩).2.1 rfl).mpr
    ⟨⟨"/", some "shot.webp"⟩, by decide, by decide⟩

/-- C7: effective-URL resolution — absolute sources pass through
unchanged on every branch; a relative source, with the server running, is
composed as `http://localhost:<port><path>` where a leading slash is
added exactly when the source does not already start with one; and every
reachable processing state with a relative target has the server running
(a run that needs a server either starts it or exits before navigating). -/
theorem c7_url_resolution :
    (∀ (b : Bool) (port u : String), isAbsoluteUrl u = true → resolveUrl b port u = u)
    ∧ (∀ (port u : String), isAbsoluteUrl u = false →
        resolveUrl true port u =
          "http://localhost:" ++ port ++
            (if startsWithStr u "/" = true then u else "/" ++ u))
    ∧ (∀ (cfg : Config) (w : World),
        needsLocalServer (screenshotPairs cfg.screenshots) = true →
        w.serverBindOk = true →
        run cfg w = Event.serverStarted :: mainTryEvents w true
          (jsIntToString (parseIntJS (jsOr cfg.inputPort "3000"))) cfg.workspace
          (!heightTruthy (viewportHeight cfg.inputHeight))
          (screenshotPairs cfg.screenshots)) := by
  refine ⟨?_, ?_, ?_⟩
  · intro b port u hu
    unfold resolveUrl
    rw [hu]
    rfl
  · intro port u hu
    unfold resolveUrl
    rw [hu]
    rfl
  · exact run_with_server

/-- C7 witness: concrete resolutions of an absolute and a relative
source. -/
theorem c7_url_resolution_witness :
    resolveUrl true "3000" "https://example.com/" = "https://example.com/"
    ∧ resolveUrl true "3000" "about.html" = "http://localhost:3000/about.html"
    ∧ resolveUrl true "3000" "/topics/" = "http://localhost:3000/topics/" := by
  refine ⟨c7_url_resolution.1 true "3000" "https://example.com/" (by decide), ?_, ?_⟩
  · have h := c7_url_resolution.2.1 "3000" "about.html" (by decide)
    rwa [if_neg (by decide)] at h
  · have h := c7_url_resolution.2.1 "3000" "/topics/" (by decide)
    rwa [if_pos (by decide)] at h

/-- C9: capture mode is a function of viewport-height presence — when
`INPUT_HEIGHT` is absent every screenshot of the run is taken with
`fullPage = true`, and when it is set to a value parsing to a nonzero
integer every screenshot is taken with `fullPage = false`. -/
theorem c9_fullpage_mode (cfg : Config) (w : World) :
    (cfg.inputHeight = none →
      ∀ b, Event.screenshotTaken b ∈ run cfg w → b = true)
    ∧ (∀ s h, cfg.inputHeight = some s → parseIntJS s = some h → h ≠ 0 →
        ∀ b, Event.screenshotTaken b ∈ run cfg w → b = false) := by
  constructor
  · intro hnone b hb
    have hflag := screenshot_flag_run cfg w b hb
    rw [hnone] at hflag
    simpa [viewportHeight, heightTruthy] using hflag
  · intro s h hs hparse hnz b hb
    have hflag := screenshot_flag_run cfg w b hb
    rw [hs] at hflag
    have hne : s.data.isEmpty = false := by
      cases hd : s.data with
      | nil =>
        exfalso
        have : parseIntJS s = none := by
          unfold parseIntJS
          rw [hd]
          rfl
        rw [this] at hparse
        exact Option.noConfusion hparse
      | cons c cs => simp [hd]
    rw [show viewportHeight (some s) = some (parseIntJS s) from by
      simp [viewportHeight, hne]] at hflag
    rw [hparse] at hflag
    have : heightTruthy (some (some h)) = true := by
      simp [heightTruthy, hnz]
    rw [this] at hflag
    simpa using hflag

/-- C9 witness: with no height the single capture is full-page; with
height 900 it is viewport-only. -/
theorem c9_fullpage_mode_witness :
    (∀ b, Event.screenshotTaken b ∈
        run ⟨some "/=shot.webp", none, none, "/ws"⟩
          ⟨true, fun _ => true, true, fun _ => false, fun _ => false⟩ → b = true)
    ∧ (∀ b, Event.screenshotTaken b ∈
        run ⟨some "/=shot.webp", some "900", none, "/ws"⟩
          ⟨true, fun _ => true, true, fun _ => false, fun _ => false⟩ → b = false) :=
  ⟨(c9_fullpage_mode ⟨some "/=shot.webp", none, none, "/ws"⟩
      ⟨true, fun _ => true, true, fun _ => false, fun _ => false⟩).1 rfl,
   (c9_fullpage_mode ⟨some "/=shot.webp", some "900", none, "/ws"⟩
      ⟨true, fun _ => true, true, fun _ => false, fun _ => false⟩).2
     "900" 900 rfl (by decide) (by decide)⟩

/-- C10: the encoder choice depends only on the lower-cased extension of
the destination, so it is invariant under the letter case of the
extension; upper- and mixed-case variants of `.png`, `.jpg`, `.jpeg`
select the same encoders as their lowercase forms. -/
theorem c10_case_insensitive_dispatch :
    (∀ p q : String, lowerAscii (extname p) = lowerAscii (extname q) →
        formatOf p = formatOf q)
    ∧ formatOf "shot.PNG" = ImageFormat.png
    ∧ formatOf "shot.Png" = ImageFormat.png
    ∧ formatOf "shot.JPG" = ImageFormat.jpeg
    ∧ formatOf "shot.JPEG" = ImageFormat.jpeg
    ∧ formatOf "shot.Jpeg" = ImageFormat.jpeg
    ∧ formatOf "shot.WEBP" = ImageFormat.webp
    ∧ formatOf "shot.GIF" = ImageFormat.webp := by
  refine ⟨?_, by decide, by decide, by decide, by decide, by decide, by decide, by decide⟩
  intro p q hpq
  unfold formatOf
  rw [hpq]

/-- C10 witness: two paths whose extensions differ only in case get the
same encoder. -/
theorem c10_case_insensitive_dispatch_witness :
    formatOf "a.PnG" = formatOf "b.png" :=
  c10_case_insensitive_dispatch.1 "a.PnG" "b.png" (by decide)

/-- C8: encoder choice is total on the destination's lower-cased
extension (`.png` to PNG, `.jpg`/`.jpeg` to JPEG, everything else to
WebP); `mkdir` with `recursive: true` yields the requested directory and
every slash-delimited ancestor while preserving existing directories; and
in every run each write event is preceded by an ensure-directory event
for the written path's parent, so a write never runs before its parent
directory exists. -/
theorem c8_dispatch_and_directories :
    (∀ p : String,
        (lowerAscii (extname p) = ".png" → formatOf p = ImageFormat.png)
        ∧ ((lowerAscii (extname p) = ".jpg" ∨ lowerAscii (extname p) = ".jpeg") →
            formatOf p = ImageFormat.jpeg)
        ∧ (lowerAscii (extname p) ≠ ".png" → lowerAscii (extname p) ≠ ".jpg" →
            lowerAscii (extname p) ≠ ".jpeg" → formatOf p = ImageFormat.webp))
    ∧ (∀ (fs : List String) (dir : String),
        dir ∈ mkdirRecursive fs dir
        ∧ (∀ d ∈ fs, d ∈ mkdirRecursive fs dir)
        ∧ (∀ i, dir.data.get? i = some '/' → 0 < i →
            String.mk (dir.data.take i) ∈ mkdirRecursive fs dir))
    ∧ (∀ (cfg : Config) (w : World), writesCovered [] (run cfg w) = true) := by
  refine ⟨?_, ?_, writesCovered_run⟩
  · intro p
    refine ⟨?_, ?_, ?_⟩
    · intro h
      simp only [formatOf, h]
      decide
    · rintro (h | h) <;> simp only [formatOf, h] <;> decide
    · intro h1 h2 h3
      simp [formatOf, formatOfExt, h1, h2, h3]
  · intro fs dir
    refine ⟨?_, ?_, ?_⟩
    · exact List.mem_append_left _ (List.mem_cons_self _ _)
    · intro d hd
      exact List.mem_append_right _ hd
    · intro i hi hipos
      refine List.mem_append_left _ (List.mem_cons_of_mem _ ?_)
      rw [List.mem_filterMap]
      obtain ⟨hlt, _⟩ := List.get?_eq_some.mp hi
      exact ⟨i, List.mem_range.mpr hlt, by rw [hi]; simp [hipos]⟩

/-- C8 witness: concrete dispatches for the three encoder families and a
concrete ancestor created by the recursive mkdir. -/
theorem c8_dispatch_and_directories_witness :
    formatOf "x.png" = ImageFormat.png
    ∧ formatOf "x.jpg" = ImageFormat.jpeg
    ∧ formatOf "x.bmp" = ImageFormat.webp
    ∧ "/ws" ∈ mkdirRecursive [] "/ws/out" :=
  ⟨(c8_dispatch_and_directories.1 "x.png").1 (by decide),
   (c8_dispatch_and_directories.1 "x.jpg").2.1 (Or.inl (by decide)),
   (c8_dispatch_and_directories.1 "x.bmp").2.2 (by decide) (by decide) (by decide),
   (c8_dispatch_and_directories.2.1 [] "/ws/out").2.2 3 (by decide) (by decide)⟩

/-- C1 counterexample: a run with a started local server whose single
navigation fails reaches the `catch`, which calls `process.exit(1)`; the
browser-close step never executes (it sits after the loop inside the
`try`) and the `finally` server shutdown is skipped because `process.exit`
terminates Node without unwinding — so neither cleanup event occurs. -/
theorem c1_counterexample :
    Event.serverStarted ∈ run ⟨some "/=shot.webp", none, none, "/ws"⟩
        ⟨true, fun _ => true, true, fun _ => true, fun _ => false⟩
    ∧ Event.exited 1 ∈ run ⟨some "/=shot.webp", none, none, "/ws"⟩
        ⟨true, fun _ => true, true, fun _ => true, fun _ => false⟩
    ∧ Event.browserClosed ∉ run ⟨some "/=shot.webp", none, none, "/ws"⟩
        ⟨true, fun _ => true, true, fun _ => true, fun _ => false⟩
    ∧ Event.serverClosed ∉ run ⟨some "/=shot.webp", none, none, "/ws"⟩
        ⟨true, fun _ => true, true, fun _ => true, fun _ => false⟩ := by
  decide

/-- C1 (amended): cleanup is guaranteed only on the success path — a run
that exits 0 closed the browser and, when a server was needed, stopped
it; but a run that exits 1 (navigation, encode or launch failure, or a
server bind failure) never closes the browser and never stops the
server, because the `catch` handler's `process.exit(1)` pre-empts both
the in-`try` close and the `finally` block. -/
theorem c1_cleanup_success_only (cfg : Config) (w : World) :
    (Event.exited 0 ∈ run cfg w →
      Event.browserClosed ∈ run cfg w
      ∧ (needsLocalServer (screenshotPairs cfg.screenshots) = true →
          Event.serverClosed ∈ run cfg w))
    ∧ (Event.exited 1 ∈ run cfg w →
      Event.browserClosed ∉ run cfg w ∧ Event.serverClosed ∉ run cfg w) := by
  by_cases hn : needsLocalServer (screenshotPairs cfg.screenshots)
  · by_cases hb : w.serverBindOk
    · rw [run_with_server cfg w hn hb]
      by_cases hl : w.launchOk
      · constructor
        · intro h0
          have h0' : Event.exited 0 ∈ mainTryEvents w true
              (jsIntToString (parseIntJS (jsOr cfg.inputPort "3000"))) cfg.workspace
              (!heightTruthy (viewportHeight cfg.inputHeight))
              (screenshotPairs cfg.screenshots) := by
            rcases List.mem_cons.mp h0 with h | h
            · exact Event.noConfusion h
            · exact h
          have hs := (mainTry_exit0_iff w true _ _ _ _ hl).mp h0'
          exact ⟨List.mem_cons_of_mem _ ((mainTry_browserClosed_iff w true _ _ _ _ hl).mpr hs),
            fun _ => List.mem_cons_of_mem _
              ((mainTry_serverClosed_iff w true _ _ _ _ hl).mpr ⟨hs, rfl⟩)⟩
        · intro h1
          have h1' : Event.exited 1 ∈ mainTryEvents w true
              (jsIntToString (parseIntJS (jsOr cfg.inputPort "3000"))) cfg.workspace
              (!heightTruthy (viewportHeight cfg.inputHeight))
              (screenshotPairs cfg.screenshots) := by
            rcases List.mem_cons.mp h1 with h | h
            · exact Event.noConfusion h
            · exact h
          have hs := (mainTry_exit1_iff w true _ _ _ _ hl).mp h1'
          constructor
          · intro hc
            rcases List.mem_cons.mp hc with h | h
            · exact Event.noConfusion h
            · have := (mainTry_browserClosed_iff w true _ _ _ _ hl).mp h
              rw [hs] at this
              exact Bool.false_ne_true this
          · intro hc
            rcases List.mem_cons.mp hc with h | h
            · exact Event.noConfusion h
            · have := ((mainTry_serverClosed_iff w true _ _ _ _ hl).mp h).1
              rw [hs] at this
              exact Bool.false_ne_true this
      · have hl' : w.launchOk = false := by simpa using hl
        have hM : mainTryEvents w true
            (jsIntToString (parseIntJS (jsOr cfg.inputPort "3000"))) cfg.workspace
            (!heightTruthy (viewportHeight cfg.inputHeight))
            (screenshotPairs cfg.screenshots) = [Event.exited 1] := by
          simp [mainTryEvents, hl']
        rw [hM]
        constructor
        · intro h0; simp at h0
        · intro h1
          constructor <;> intro hc <;> simp at hc
    · rw [run_bind_failure cfg w hn (by simpa using hb)]
      constructor
      · intro h0; simp at h0
      · intro h1
        constructor <;> intro hc <;> simp at hc
  · have hn' : needsLocalServer (screenshotPairs cfg.screenshots) = false := by
      simpa using hn
    rw [run_without_server cfg w hn']
    by_cases hl : w.launchOk
    · constructor
      · intro h0
        have hs := (mainTry_exit0_iff w false _ _ _ _ hl).mp h0
        exact ⟨(mainTry_browserClosed_iff w false _ _ _ _ hl).mpr hs,
          fun hnt => absurd hnt (by simp [hn'])⟩
      · intro h1
        have hs := (mainTry_exit1_iff w false _ _ _ _ hl).mp h1
        constructor
        · intro hc
          have := (mainTry_browserClosed_iff w false _ _ _ _ hl).mp hc
          rw [hs] at this
          exact Bool.false_ne_true this
        · intro hc
          have := ((mainTry_serverClosed_iff w false _ _ _ _ hl).mp hc).2
          exact Bool.false_ne_true this
    · have hl' : w.launchOk = false := by simpa using hl
      have hM : mainTryEvents w false
          (jsIntToString (parseIntJS (jsOr cfg.inputPort "3000"))) cfg.workspace
          (!heightTruthy (viewportHeight cfg.inputHeight))
          (screenshotPairs cfg.screenshots) = [Event.exited 1] := by
        simp [mainTryEvents, hl']
      rw [hM]
      constructor
      · intro h0; simp at h0
      · intro h1
        constructor <;> intro hc <;> simp at hc

/-- C1 witness: a fully successful run with a local server does perform
both cleanup steps. -/
theorem c1_cleanup_success_only_witness :
    Event.browserClosed ∈ run ⟨some "/=shot.webp", none, none, "/ws"⟩
        ⟨true, fun _ => true, true, fun _ => false, fun _ => false⟩
    ∧ Event.serverClosed ∈ run ⟨some "/=shot.webp", none, none, "/ws"⟩
        ⟨true, fun _ => true, true, fun _ => false, fun _ => false⟩ := by
  have h := (c1_cleanup_success_only ⟨some "/=shot.webp", none, none, "/ws"⟩
      ⟨true, fun _ => true, true, fun _ => false, fun _ => false⟩).1 (by decide)
  exact ⟨h.1, h.2 (by decide)⟩

/-- C2 counterexample: with a bound server whose readiness probe never
succeeds, `waitForServer` exhausts its 20 attempts and returns `false`,
but the caller discards the result (line 155), so the run does not fail
with any error — it proceeds to navigate and even exits successfully. -/
theorem c2_counterexample :
    waitForServer (fun _ => false) 20 = false
    ∧ Event.navigated "http://localhost:3000/" ∈
        run ⟨some "/=shot.webp", none, none, "/ws"⟩
          ⟨true, fun _ => false, true, fun _ => false, fun _ => false⟩
    ∧ Event.exited 0 ∈ run ⟨some "/=shot.webp", none, none, "/ws"⟩
        ⟨true, fun _ => false, true, fun _ => false, fun _ => false⟩
    ∧ Event.exited 1 ∉ run ⟨some "/=shot.webp", none, none, "/ws"⟩
        ⟨true, fun _ => false, true, fun _ => false, fun _ => false⟩ := by
  decide

/-- C2 (amended): the readiness wait is bounded — it reports success
exactly when some probe among attempts 1..20 succeeds — but its result is
ignored: exhausting the bound only logs a warning and the run proceeds to
launch the browser and navigate regardless; the only server-related
failure that aborts the run (exit 1, before any browser exists) is a
bind error of `createServer`. -/
theorem c2_bounded_wait_result_ignored :
    (∀ (checkOk : Nat → Bool) (n : Nat),
        waitForServer checkOk n = true ↔ ∃ k, 1 ≤ k ∧ k ≤ n ∧ checkOk k = true)
    ∧ (∀ (cfg : Config) (w : World),
        needsLocalServer (screenshotPairs cfg.screenshots) = true →
        w.serverBindOk = false → run cfg w = [Event.exited 1])
    ∧ (∀ (cfg : Config) (w : World),
        needsLocalServer (screenshotPairs cfg.screenshots) = true →
        w.serverBindOk = true → w.launchOk = true →
        Event.browserLaunched ∈ run cfg w) := by
  refine ⟨waitForServer_iff, run_bind_failure, ?_⟩
  intro cfg w hn hb hl
  rw [run_with_server cfg w hn hb]
  refine List.mem_cons_of_mem _ ?_
  unfold mainTryEvents
  by_cases hs : (runBody w true
      (jsIntToString (parseIntJS (jsOr cfg.inputPort "3000"))) cfg.workspace
      (!heightTruthy (viewportHeight cfg.inputHeight))
      (screenshotPairs cfg.screenshots)).2 <;>
    simp [hl, hs]

/-- C2 witness: readiness succeeding on attempt 5 is within the bound;
a bind failure exits 1; and with readiness never reached the browser is
still launched. -/
theorem c2_bounded_wait_result_ignored_witness :
    waitForServer (fun k => k == 5) 20 = true
    ∧ run ⟨some "/=shot.webp", none, none, "/ws"⟩
        ⟨false, fun _ => false, true, fun _ => false, fun _ => false⟩ = [Event.exited 1]
    ∧ Event.browserLaunched ∈ run ⟨some "/=shot.webp", none, none, "/ws"⟩
        ⟨true, fun _ => false, true, fun _ => false, fun _ => false⟩ :=
  ⟨(c2_bounded_wait_result_ignored.1 (fun k => k == 5) 20).mpr
      ⟨5, by decide, by decide, by decide⟩,
   c2_bounded_wait_result_ignored.2.1 ⟨some "/=shot.webp", none, none, "/ws"⟩
      ⟨false, fun _ => false, true, fun _ => false, fun _ => false⟩ (by decide) rfl,
   c2_bounded_wait_result_ignored.2.2 ⟨some "/=shot.webp", none, none, "/ws"⟩
      ⟨true, fun _ => false, true, fun _ => false, fun _ => false⟩ (by decide) rfl rfl⟩

/-- C3 counterexample: the Target Parser performs no validation — an item
lacking the `=` separator parses to a target with an undefined
destination instead of failing, and an empty resulting list is passed
through, after which the run completes with exit 0 rather than a
`ConfigurationError`. -/
theorem c3_counterexample :
    screenshotPairs (some "shot.webp") = [⟨"shot.webp", none⟩]
    ∧ screenshotPairs (some ",") = []
    ∧ Event.exited 0 ∈ run ⟨some ",", none, none, "/ws"⟩
        ⟨true, fun _ => true, true, fun _ => false, fun _ => false⟩ := by
  refine ⟨rfl, rfl, by decide⟩

/-- C3 (amended): the Target Parser never fails — it is total.  An empty
parsed list makes the run process zero targets and exit 0, and an item
lacking `=` yields a target whose `undefined` destination makes the
processing of that target throw (caught by the top-level handler as exit
1), not a parse-time `ConfigurationError`. -/
theorem c3_parser_never_fails :
    (∀ t : CaptureTarget, t.outputPath = none →
        ∀ (w : World) (srv : Bool) (port ws : String) (fp : Bool),
          (targetEvents w srv port ws fp t).2 = false)
    ∧ (∀ (cfg : Config) (w : World),
        screenshotPairs cfg.screenshots = [] → w.launchOk = true →
        run cfg w = [Event.browserLaunched, Event.browserClosed, Event.exited 0]) := by
  constructor
  · intro t ht w srv port ws fp
    unfold targetEvents
    by_cases h1 : w.navFails (resolveUrl srv port t.urlPath)
    · simp [h1]
    · simp [h1, ht]
  · intro cfg w hpairs hl
    have hn : needsLocalServer (screenshotPairs cfg.screenshots) = false := by
      rw [hpairs]; rfl
    rw [run_without_server cfg w hn]
    rw [hpairs]
    simp [mainTryEvents, hl, runBody]

/-- C3 witness: processing a target without a destination fails at that
target, and a configuration parsing to zero targets runs to a clean
exit. -/
theorem c3_parser_never_fails_witness :
    (targetEvents ⟨true, fun _ => true, true, fun _ => false, fun _ => false⟩
        true "3000" "/ws" true ⟨"shot.webp", none⟩).2 = false
    ∧ run ⟨some ",", none, none, "/ws"⟩
        ⟨true, fun _ => true, true, fun _ => false, fun _ => false⟩
        = [Event.browserLaunched, Event.browserClosed, Event.exited 0] :=
  ⟨c3_parser_never_fails.1 ⟨"shot.webp", none⟩ rfl
      ⟨true, fun _ => true, true, fun _ => false, fun _ => false⟩ true "3000" "/ws" true,
   c3_parser_never_fails.2 ⟨some ",", none, none, "/ws"⟩
      ⟨true, fun _ => true, true, fun _ => false, fun _ => false⟩ rfl rfl⟩

/-- C4 counterexample: the three option strings are parsed inside one
`try`, so a malformed PNG options string resets the WebP options to their
default even though the custom WebP string is well-formed JSON — the
formats are not independent. -/
theorem c4_counterexample :
    (parseFormatOptions (some "\x7b\"quality\":80\x7d") (some "\x7bbad") none).webp
      = defaultWebpJson
    ∧ jsonParse "\x7b\"quality\":80\x7d"
      = some (Json.jobj [("quality", Json.jnum "80")])
    ∧ defaultWebpJson ≠ Json.jobj [("quality", Json.jnum "80")] :=
  ⟨rfl, rfl, fun h => absurd (congrArg jsonFieldCount h) (by decide)⟩

/-- C4 (amended): format-options parsing is all-or-nothing — when all
three strings (after `||`-defaulting) parse, each bag is its own parse
result, and when any one is malformed all three bags fall back to the
documented defaults together; in either case the run continues (parsing
never fails the run). -/
theorem c4_options_all_or_nothing (w p j : Option String) :
    (∀ a b c, jsonParse (jsOr w defaultWebpStr) = some a →
        jsonParse (jsOr p defaultPngStr) = some b →
        jsonParse (jsOr j defaultJpegStr) = some c →
        parseFormatOptions w p j = ⟨a, b, c⟩)
    ∧ ((jsonParse (jsOr w defaultWebpStr) = none
        ∨ jsonParse (jsOr p defaultPngStr) = none
        ∨ jsonParse (jsOr j defaultJpegStr) = none) →
        parseFormatOptions w p j = ⟨defaultWebpJson, defaultPngJson, defaultJpegJson⟩) := by
  constructor
  · intro a b c ha hb hc
    simp only [parseFormatOptions, ha, hb, hc]
  · intro hnone
    cases h1 : jsonParse (jsOr w defaultWebpStr) <;>
      cases h2 : jsonParse (jsOr p defaultPngStr) <;>
        cases h3 : jsonParse (jsOr j defaultJpegStr) <;>
          simp_all [parseFormatOptions]

/-- C4 witness: three well-formed custom strings parse to three custom
bags; the all-defaults fallback fires on a malformed input. -/
theorem c4_options_all_or_nothing_witness :
    parseFormatOptions (some "\x7b\"quality\":80\x7d") (some "\x7b\"quality\":95\x7d")
        (some "\x7b\"quality\":85\x7d")
      = ⟨Json.jobj [("quality", Json.jnum "80")],
         Json.jobj [("quality", Json.jnum "95")],
         Json.jobj [("quality", Json.jnum "85")]⟩
    ∧ parseFormatOptions (some "\x7b\"quality\":80\x7d") (some "\x7bbad") none
      = ⟨defaultWebpJson, defaultPngJson, defaultJpegJson⟩ :=
  ⟨(c4_options_all_or_nothing (some "\x7b\"quality\":80\x7d")
      (some "\x7b\"quality\":95\x7d") (some "\x7b\"quality\":85\x7d")).1
      _ _ _ rfl rfl rfl,
   (c4_options_all_or_nothing (some "\x7b\"quality\":80\x7d") (some "\x7bbad") none).2
      (Or.inr (Or.inl rfl))⟩

end GithubScreenshots
